import Mathlib

/-!
Verification of the InaSAFE impact-function core: a shallow embedding of
`src/impact_functions/flood/flood_population_impact.py` and
`src/safe/impact_functions/volcanic/volcano_population_evacuation_polygon_hazard.py`.

Modelling conventions:
* Python floats are modelled as exact rationals (`ℚ`); decimal literals such as
  `0.1`, `0.0005`, `2.8` become the corresponding rationals.
* Python `int(x)` applied to a float truncates toward zero; it is modelled by
  `pyInt` below.  Python 2 `/` on two ints is floor division (`Int.fdiv`).
* numpy grids are modelled as lists of cell values; elementwise array
  operations become `List.map` / `List.zipWith` of the per-cell operation.
* Raised exceptions are modelled with `Except`: the run functions return
  `Except err out`, so an error aborts the computation with no partial result.
* Dictionaries keyed by strings (or polygon ids) are modelled as total
  functions updated pointwise, with the `dict.get(key, 0)` default built in.
-/

/-- Python `int()` on a float/rational: truncation toward zero
(floor for non-negative arguments, ceiling for negative ones). -/
def pyInt (q : ℚ) : Int := if 0 ≤ q then ⌊q⌋ else ⌈q⌉

/-- Modelled from the spec: `round_thousand` (imported from
`safe.common.utilities`, which is not under `src/`).  The spec describes it as
rounding "to the nearest thousand using round-half-up semantics", i.e.
`⌊(n + 500) / 1000⌋ * 1000`. -/
def round_thousand (n : Int) : Int := ((n + 500).fdiv 1000) * 1000

/-- Does the first character list start the second? -/
def charsStart : List Char → List Char → Bool
  | [], _ => true
  | _ :: _, [] => false
  | a :: as, b :: bs => a == b && charsStart as bs

/-- Does the first character list occur inside the second? -/
def charsContain (sub : List Char) : List Char → Bool
  | [] => sub.isEmpty
  | c :: rest => charsStart sub (c :: rest) || charsContain sub rest

/-- Substring test, modelling Python's `sub in s` on strings. -/
def strContains (sub s : String) : Bool := charsContain sub.toList s.toList

/-! ## Flood impact function (`FloodImpactFunction.run`) -/

/-- Depth above which people are regarded affected [m] (`threshold = 0.1`). -/
def flood_threshold : ℚ := 1 / 10

/-- Pixel area constant used by the legacy density branch (`pixel_area = 2500`). -/
def pixel_area : ℚ := 2500

/-- Resolution cutoff deciding legacy vs. scaled population data (`0.0005`). -/
def resolution_cutoff : ℚ := 5 / 10000

/-- One cell of `I = numpy.where(D > threshold, P, 0) / 100000.0 * pixel_area`
(legacy density branch, taken when the exposure resolution is below the
cutoff). -/
def floodCellLegacy (d p : ℚ) : ℚ :=
  (if d > flood_threshold then p else 0) / 100000 * pixel_area

/-- One cell of `I = numpy.where(D > threshold, P, 0)` (pre-scaled branch,
taken when the exposure resolution is at or above the cutoff). -/
def floodCellScaled (d p : ℚ) : ℚ :=
  if d > flood_threshold then p else 0

/-- Per-cell impact including the resolution branch of the source. -/
def floodCell (resolution d p : ℚ) : ℚ :=
  if resolution < resolution_cutoff then floodCellLegacy d p
  else floodCellScaled d p

/-- The legacy impact grid, elementwise over depth and population grids. -/
def floodImpactLegacy (depths pops : List ℚ) : List ℚ :=
  List.zipWith floodCellLegacy depths pops

/-- The pre-scaled impact grid, elementwise over depth and population grids. -/
def floodImpactScaled (depths pops : List ℚ) : List ℚ :=
  List.zipWith floodCellScaled depths pops

/-- Normalize one gender-ratio cell: `if gender_ratio_unit == 'percent': G /= 100`. -/
def genderRatioValue (unit : String) (g : ℚ) : ℚ :=
  if unit = "percent" then g / 100 else g

/-- One cell of `P_female = P * G` (also used for `I_female = I * G`). -/
def femaleCell (p r : ℚ) : ℚ := p * r

/-- One cell of `P_male = P - P_female` (also used for `I_male = I - I_female`). -/
def maleCell (p r : ℚ) : ℚ := p - femaleCell p r

/-- An exposure layer as consumed by the flood run: its keywords
(`datatype`, `unit`), its native isotropic resolution, and its grid as
returned by `get_data(nan=0.0)` resp. `get_data(nan=0.0, scaling=True)`. -/
structure ELayer where
  datatype : Option String
  unit : String
  resolution : ℚ
  density_data : List ℚ
  scaled_data : List ℚ
deriving DecidableEq

/-- Errors the flood run can raise.  The source only ever raises
`RuntimeError`; `invalidUnitError` is the error class named by the spec's
taxonomy and is included to express that the code never produces it. -/
inductive FloodError where
  | runtimeError (msg : String)
  | invalidUnitError
deriving DecidableEq

/-- Message of the gender-ratio unit check. -/
def gender_unit_msg : String :=
  "Unit for gender ratio must be either \"percent\" or \"ratio\""

/-- Message raised when no population layer is found (format argument elided). -/
def no_population_msg : String := "No population layer was found"

/-- The layer-identification loop of `FloodImpactFunction.run`: scans the
exposure layers in order, the last non-ratio layer becoming the population
layer and the last ratio layer the gender-ratio layer (with its unit), failing
as soon as a gender-ratio layer declares a unit other than
`"percent"`/`"ratio"`. -/
def findLayers :
    List ELayer → Option ELayer × Option (ELayer × String) →
    Except FloodError (Option ELayer × Option (ELayer × String))
  | [], acc => Except.ok acc
  | layer :: rest, acc =>
    match layer.datatype with
    | none => findLayers rest (some layer, acc.2)
    | some datatype =>
      if ¬ strContains "ratio" datatype then
        findLayers rest (some layer, acc.2)
      else
        if ¬ (layer.unit = "percent" ∨ layer.unit = "ratio") then
          Except.error (FloodError.runtimeError gender_unit_msg)
        else findLayers rest (acc.1, some (layer, layer.unit))

/-- Result layer of the flood run: the impact grid `I`, the population grid
`P` actually used, and the optional female/male population and impact grids. -/
structure FloodOutput where
  impact : List ℚ
  population : List ℚ
  female_population : Option (List ℚ)
  male_population : Option (List ℚ)
  female_impact : Option (List ℚ)
  male_impact : Option (List ℚ)
deriving DecidableEq

/-- The flood run: identify layers, branch on the exposure resolution to
compute the impact grid, then optionally derive the gender breakdown.
The report strings of the source are not modelled. -/
def floodRun (depths : List ℚ) (layers : List ELayer) :
    Except FloodError FloodOutput :=
  match findLayers layers (none, none) with
  | Except.error e => Except.error e
  | Except.ok (popOpt, genderOpt) =>
    match popOpt with
    | none => Except.error (FloodError.runtimeError no_population_msg)
    | some population =>
      let P := if population.resolution < resolution_cutoff then
                 population.density_data else population.scaled_data
      let I := if population.resolution < resolution_cutoff then
                 floodImpactLegacy depths population.density_data
               else floodImpactScaled depths population.scaled_data
      match genderOpt with
      | none => Except.ok ⟨I, P, none, none, none, none⟩
      | some (gender_ratio, gender_ratio_unit) =>
        let G := gender_ratio.density_data.map (genderRatioValue gender_ratio_unit)
        let P_female := List.zipWith femaleCell P G
        let P_male := List.zipWith maleCell P G
        let I_female := List.zipWith femaleCell I G
        let I_male := List.zipWith maleCell I G
        Except.ok ⟨I, P, some P_female, some P_male, some I_female, some I_male⟩

/-! ## Volcano impact function (`VolcanoPolygonHazardPopulation.run`) -/

/-- Geometry of the hazard layer, as tested by `H.is_polygon_data` /
`H.is_point_data`. -/
inductive GeometryKind where
  | polygon
  | point
  | other
deriving DecidableEq

/-- Errors of the volcano pipeline.  The source raises plain `Exception`s
for the input checks and `InaSAFEError` for the missing category attribute;
`unsupportedGeometryError` is the error class named by the spec's taxonomy and
is included to express that the code never produces it;
`emptyDistributionError` is the spec taxonomy's classification failure,
raised by the spec-modelled `create_classes` on a degenerate distribution. -/
inductive VolcanoError where
  | exception (msg : String)
  | inaSAFEError (msg : String)
  | unsupportedGeometryError
  | emptyDistributionError
deriving DecidableEq

/-- Message of the vector-layer check (format arguments elided). -/
def not_vector_msg : String := "Input hazard was not a vector layer as expected"

/-- Message of the polygon-or-point check (format arguments elided). -/
def geometry_msg : String := "Input hazard must be a polygon or point layer"

/-- Message of the category-attribute check (format arguments elided). -/
def missing_attribute_msg : String :=
  "Hazard data did not contain expected attribute KRB"

/-- The fixed polygon-hazard category list of the source
(`category_names`, most severe first). -/
def category_names : List String :=
  ["Kawasan Rawan Bencana III", "Kawasan Rawan Bencana II",
   "Kawasan Rawan Bencana I"]

/-- The colour list of the style step (8 colours). -/
def colours : List String :=
  ["#FFFFFF", "#38A800", "#79C900", "#CEED00",
   "#FFCC00", "#FF6600", "#FF0000", "#7A0000"]

/-- The evenly spaced breaks from 0 up to the maximum observed value that the
classification produces on a non-degenerate distribution (the success value
of `create_classes` below). -/
def class_breaks (values : List ℚ) (num_classes : Nat) : List ℚ :=
  (List.range num_classes).map
    (fun i : Nat => values.foldl max 0 * ((i : ℚ) + 1) / (num_classes : ℚ))

/-- Modelled from the spec: `create_classes` (imported from
`safe.common.utilities`, which is not under `src/`).  Per the spec's
Classification Engine contract it "must produce non-decreasing thresholds
spanning observed minimum (coerced to 0 for the first class) to observed
maximum" and "fails with an `EmptyDistributionError` if all input values are
zero or the input set is empty"; the success value is modelled as
`num_classes` evenly spaced breaks from 0 up to the maximum observed value. -/
def create_classes (values : List ℚ) (num_classes : Nat) :
    Except VolcanoError (List ℚ) :=
  if values.isEmpty || values.all (fun v => v == 0) then
    Except.error VolcanoError.emptyDistributionError
  else Except.ok (class_breaks values num_classes)

/-- One style class of the output's `style_info` (the label built by the
external `humanize_class`/`create_label`, also absent from `src/`, is not
modelled; the claims do not mention it). -/
structure StyleClass where
  colour : String
  min : ℚ
  max : ℚ
  transparency : Int
deriving DecidableEq

/-- A default style class, used only as the `getD` fallback in statements. -/
def dummyStyle : StyleClass := ⟨"", 0, 0, 0⟩

/-- The style loop of the source, over the breaks `classes` returned by the
classification: for each colour index `i`, class `i` gets `min = 0` and
`transparency = 100` if `i = 0`, else `min = classes[i-1]` and
`transparency = 30`; every class gets `max = classes[i]`. -/
def styleClasses (classes : List ℚ) : List StyleClass :=
  (List.range colours.length).map
    (fun i =>
      ⟨colours.getD i "",
       if i = 0 then 0 else classes.getD (i - 1) 0,
       classes.getD i 0,
       if i = 0 then 100 else 30⟩)

/-- The styling step of the source run: classify the per-polygon population
counts (`classes = create_classes(population_counts, len(colours))`), then
run the style loop over the resulting breaks.  A degenerate (all-zero or
empty) distribution fails here, as the spec's classification does. -/
def styleStep (population_counts : List ℚ) :
    Except VolcanoError (List StyleClass) :=
  match create_classes population_counts colours.length with
  | Except.error e => Except.error e
  | Except.ok classes => Except.ok (styleClasses classes)

/-- One step of the per-sample accumulation loop: the sample's population is
added to its polygon's `population` attribute and to the `categories` entry of
that polygon's category value. -/
def volcano_step (polys : List String) (acc : (Nat → ℚ) × (String → ℚ))
    (s : Nat × ℚ) : (Nat → ℚ) × (String → ℚ) :=
  (fun i => if i = s.1 then acc.1 i + s.2 else acc.1 i,
   fun c => if c = polys.getD s.1 "" then acc.2 c + s.2 else acc.2 c)

/-- The accumulation loop over the joined samples `P.get_data()`: given the
category attribute of each hazard polygon and the `(polygon_id, population)`
samples, returns the per-polygon population totals and the per-category
totals (both initialized to zero, as in the source). -/
def volcano_accumulate (polys : List String) (samples : List (Nat × ℚ)) :
    (Nat → ℚ) × (String → ℚ) :=
  samples.foldl (volcano_step polys) (fun _ => (0 : ℚ), fun _ => (0 : ℚ))

/-- The cumulative loop of the source:
`pop = int(categories.get(key, 0)); pop = round_thousand(pop);`
`cum += pop; cum = round_thousand(cum)`, collecting `pops`, `cums` and the
final value of `cum` (which becomes `evacuated`). -/
def cumLoop (categories : String → ℚ) (cum : Int) :
    List String → List Int × List Int × Int
  | [] => ([], [], cum)
  | name :: rest =>
    let pop := round_thousand (pyInt (categories name))
    let cum2 := round_thousand (cum + pop)
    let r := cumLoop categories cum2 rest
    (pop :: r.1, cum2 :: r.2.1, r.2.2)

/-- `rice = int(evacuated * 2.8)` (float product modelled exactly). -/
def rice (evacuated : Int) : Int := pyInt ((evacuated : ℚ) * (28 / 10))

/-- `drinking_water = int(evacuated * 17.5)` (float product modelled exactly). -/
def drinking_water (evacuated : Int) : Int :=
  pyInt ((evacuated : ℚ) * (175 / 10))

/-- `water = int(evacuated * 67)` (a Python int times an int is an int). -/
def water (evacuated : Int) : Int := evacuated * 67

/-- `family_kits = int(evacuated / 5)` (Python 2 `/` on ints floors). -/
def family_kits (evacuated : Int) : Int := evacuated.fdiv 5

/-- `toilets = int(evacuated / 20)` (Python 2 `/` on ints floors). -/
def toilets (evacuated : Int) : Int := evacuated.fdiv 20

/-- Result of the volcano run: the per-polygon population attribute of the
output vector layer, the per-category table (`pops`, `cums`), `evacuated`,
the minimum needs, the style classes and the rounded exposure total shown in
the report notes. -/
structure VolcanoOutput where
  population : List ℚ
  pops : List Int
  cums : List Int
  evacuated : Int
  rice : Int
  drinking_water : Int
  water : Int
  family_kits : Int
  toilets : Int
  style_classes : List StyleClass
  total : Int
deriving DecidableEq

/-- Input of the volcano run.  The spatial join
(`assign_hazard_values_to_exposure_data`) and the point-hazard polygon
synthesis (`make_circular_polygon`) live in `safe.engine.interpolation`,
outside `src/`, so the joined samples are an input (`samples`: pairs
`(polygon_id, population)` as in `P.get_data()`), and the entire point-hazard
branch — whose data all come from the synthesized layer — is an input oracle
(`point_branch_result`); every claim under verification exercises only the
polygon branch and the checks that precede the branch. -/
structure VolcanoInput where
  is_vector : Bool
  geometry : GeometryKind
  attribute_names : List String
  polygon_categories : List String
  samples : List (Nat × ℚ)
  exposure_total : ℚ
  point_branch_result : Except VolcanoError VolcanoOutput

/-- The volcano run: input checks in source order, then (for a polygon
hazard) the per-sample accumulation, the cumulative per-category loop, the
minimum-needs computation and the styling.  The output's `style_classes`
field is the style loop over the classification's break formula
(`class_breaks`); the classification's failure on a degenerate distribution
is modelled separately by `create_classes`/`styleStep`.  The report tables
and the volcano-name collection (which raise no errors) are not modelled. -/
def volcanoRun (inp : VolcanoInput) : Except VolcanoError VolcanoOutput :=
  if ¬ inp.is_vector then Except.error (VolcanoError.exception not_vector_msg)
  else if ¬ (inp.geometry = GeometryKind.polygon ∨
             inp.geometry = GeometryKind.point) then
    Except.error (VolcanoError.exception geometry_msg)
  else if inp.geometry = GeometryKind.point then inp.point_branch_result
  else
    if ¬ ("KRB" ∈ inp.attribute_names) then
      Except.error (VolcanoError.inaSAFEError missing_attribute_msg)
    else
      let acc := volcano_accumulate inp.polygon_categories inp.samples
      let total := round_thousand (pyInt inp.exposure_total)
      let r := cumLoop acc.2 0 category_names
      let evacuated := r.2.2
      let population :=
        (List.range inp.polygon_categories.length).map acc.1
      Except.ok
        ⟨population, r.1, r.2.1, evacuated,
         rice evacuated, drinking_water evacuated, water evacuated,
         family_kits evacuated, toilets evacuated,
         styleClasses (class_breaks population colours.length), total⟩

/-- The per-category rounded totals `round_thousand(int(categories.get(key, 0)))`. -/
def roundedPops (categories : String → ℚ) (names : List String) : List Int :=
  names.map (fun n => round_thousand (pyInt (categories n)))

/-- Running sums starting from `c`: the round-then-sum cumulative sequence. -/
def runningSums (c : Int) : List Int → List Int
  | [] => []
  | p :: ps => (c + p) :: runningSums (c + p) ps

/-- The output the polygon branch of `volcanoRun` constructs, written with
the cumulative loop already unfolded into rounded pops / running sums. -/
def volcanoExpected (inp : VolcanoInput) : VolcanoOutput :=
  let acc := volcano_accumulate inp.polygon_categories inp.samples
  let ps := roundedPops acc.2 category_names
  ⟨(List.range inp.polygon_categories.length).map acc.1,
   ps, runningSums 0 ps, ps.sum,
   rice ps.sum, drinking_water ps.sum, water ps.sum,
   family_kits ps.sum, toilets ps.sum,
   styleClasses (class_breaks
     ((List.range inp.polygon_categories.length).map acc.1) colours.length),
   round_thousand (pyInt inp.exposure_total)⟩

/-! ## Helper lemmas: flood -/

lemma floodCellLegacy_bounds (d p : ℚ) (hp : 0 ≤ p) :
    0 ≤ floodCellLegacy d p ∧ floodCellLegacy d p ≤ p := by
  unfold floodCellLegacy pixel_area
  by_cases h : d > flood_threshold
  · rw [if_pos h]
    constructor
    · positivity
    · have : p / 100000 * 2500 = p / 40 := by ring
      rw [this]
      exact div_le_self hp (by norm_num)
  · rw [if_neg h]
    norm_num [hp]

lemma floodCellScaled_bounds (d p : ℚ) (hp : 0 ≤ p) :
    0 ≤ floodCellScaled d p ∧ floodCellScaled d p ≤ p := by
  unfold floodCellScaled
  by_cases h : d > flood_threshold
  · rw [if_pos h]; exact ⟨hp, le_refl p⟩
  · rw [if_neg h]; exact ⟨le_refl 0, hp⟩

lemma getD_nonneg (pops : List ℚ) (hp : ∀ q ∈ pops, 0 ≤ q) (i : Nat) :
    0 ≤ pops.getD i 0 := by
  induction pops generalizing i with
  | nil => simp
  | cons p ps ih =>
    cases i with
    | zero => simpa using hp p (by simp)
    | succ j =>
      simpa using ih (fun q hq => hp q (by simp [hq])) j

lemma zipWith_grid_bounds (f : ℚ → ℚ → ℚ)
    (hf : ∀ d p, 0 ≤ p → 0 ≤ f d p ∧ f d p ≤ p) :
    ∀ (depths pops : List ℚ), (∀ q ∈ pops, 0 ≤ q) → ∀ i : Nat,
      0 ≤ (List.zipWith f depths pops).getD i 0 ∧
      (List.zipWith f depths pops).getD i 0 ≤ pops.getD i 0 := by
  intro depths
  induction depths with
  | nil => intro pops hp i; simpa using getD_nonneg pops hp i
  | cons d ds ih =>
    intro pops hp i
    cases pops with
    | nil => simp
    | cons p ps =>
      cases i with
      | zero => simpa using hf d p (hp p (by simp))
      | succ j =>
        simpa using ih ps (fun q hq => hp q (by simp [hq])) j

lemma floodRun_ok_impact (depths : List ℚ) (layers : List ELayer)
    (out : FloodOutput) (h : floodRun depths layers = Except.ok out) :
    out.impact = floodImpactLegacy depths out.population ∨
    out.impact = floodImpactScaled depths out.population := by
  unfold floodRun at h
  cases hfind : findLayers layers (none, none) with
  | error e => rw [hfind] at h; exact absurd h (by simp)
  | ok r =>
    rw [hfind] at h
    obtain ⟨popOpt, genderOpt⟩ := r
    cases popOpt with
    | none => exact absurd h (by simp)
    | some population =>
      by_cases hres : population.resolution < resolution_cutoff
      · cases genderOpt with
        | none =>
          simp only [if_pos hres] at h
          cases h
          exact Or.inl rfl
        | some g =>
          obtain ⟨gender_ratio, gender_ratio_unit⟩ := g
          simp only [if_pos hres] at h
          cases h
          exact Or.inl rfl
      · cases genderOpt with
        | none =>
          simp only [if_neg hres] at h
          cases h
          exact Or.inr rfl
        | some g =>
          obtain ⟨gender_ratio, gender_ratio_unit⟩ := g
          simp only [if_neg hres] at h
          cases h
          exact Or.inr rfl

/-! ## Claim C2 -/

/-- C2: in the flood impact function a cell counts as affected exactly when
the hazard depth strictly exceeds 0.1 m; below the 0.0005 resolution cutoff
the affected population per cell is `population / 100000 * 2500` (so depth
0.15 m and density 50 yield 1.25, and depth ≤ 0.1 m contributes 0), while at
or above the cutoff the pre-scaled population value is used directly. -/
theorem c2_flood_threshold_and_scale :
    (∀ resolution d p : ℚ, d ≤ flood_threshold → floodCell resolution d p = 0) ∧
    (∀ resolution d p : ℚ, resolution < resolution_cutoff →
      flood_threshold < d → floodCell resolution d p = p / 100000 * 2500) ∧
    (∀ resolution d p : ℚ, resolution_cutoff ≤ resolution →
      flood_threshold < d → floodCell resolution d p = p) ∧
    floodCell (1 / 10000) (15 / 100) 50 = 5 / 4 ∧
    floodCell (1 / 10000) (1 / 10) 50 = 0 := by
  refine ⟨?_, ?_, ?_, ?_, ?_⟩
  · intro resolution d p hd
    have hmask : ¬ d > flood_threshold := not_lt.mpr hd
    unfold floodCell floodCellLegacy floodCellScaled
    by_cases hres : resolution < resolution_cutoff <;>
      simp [hres, hmask]
  · intro resolution d p hres hd
    unfold floodCell floodCellLegacy pixel_area
    rw [if_pos hres, if_pos hd]
  · intro resolution d p hres hd
    unfold floodCell floodCellScaled
    rw [if_neg (not_lt.mpr hres), if_pos hd]
  · unfold floodCell floodCellLegacy flood_threshold resolution_cutoff pixel_area
    norm_num
  · unfold floodCell floodCellLegacy flood_threshold resolution_cutoff pixel_area
    norm_num

/-- Witness for C2: a concrete instantiation with its hypotheses discharged. -/
theorem c2_witness :
    (1 : ℚ) / 10000 < resolution_cutoff ∧ flood_threshold < (15 : ℚ) / 100 ∧
    floodCell (1 / 10000) (15 / 100) 50 = 50 / 100000 * 2500 :=
  ⟨by norm_num [resolution_cutoff], by norm_num [flood_threshold],
   c2_flood_threshold_and_scale.2.1 (1 / 10000) (15 / 100) 50
     (by norm_num [resolution_cutoff]) (by norm_num [flood_threshold])⟩

/-! ## Claim C4 -/

/-- C4: for every exposure grid with non-negative population values, every
cell of the affected-population grid is non-negative and does not exceed the
population of the same cell, in both the legacy-density branch and the
pre-scaled branch; likewise for the impact grid of any successful flood run. -/
theorem c4_affected_population_bounds :
    (∀ (depths pops : List ℚ), (∀ q ∈ pops, 0 ≤ q) → ∀ i : Nat,
      0 ≤ (floodImpactLegacy depths pops).getD i 0 ∧
      (floodImpactLegacy depths pops).getD i 0 ≤ pops.getD i 0 ∧
      0 ≤ (floodImpactScaled depths pops).getD i 0 ∧
      (floodImpactScaled depths pops).getD i 0 ≤ pops.getD i 0) ∧
    (∀ (depths : List ℚ) (layers : List ELayer) (out : FloodOutput),
      floodRun depths layers = Except.ok out →
      (∀ q ∈ out.population, 0 ≤ q) → ∀ i : Nat,
      0 ≤ out.impact.getD i 0 ∧ out.impact.getD i 0 ≤ out.population.getD i 0) := by
  constructor
  · intro depths pops hp i
    have h1 := zipWith_grid_bounds floodCellLegacy floodCellLegacy_bounds
      depths pops hp i
    have h2 := zipWith_grid_bounds floodCellScaled floodCellScaled_bounds
      depths pops hp i
    exact ⟨h1.1, h1.2, h2.1, h2.2⟩
  · intro depths layers out hrun hp i
    rcases floodRun_ok_impact depths layers out hrun with h | h
    · rw [h]
      exact zipWith_grid_bounds floodCellLegacy floodCellLegacy_bounds
        depths out.population hp i
    · rw [h]
      exact zipWith_grid_bounds floodCellScaled floodCellScaled_bounds
        depths out.population hp i

/-- Witness for C4: a concrete instantiation with its hypotheses discharged. -/
theorem c4_witness :
    (∀ q ∈ ([50, 3] : List ℚ), 0 ≤ q) ∧
    (0 ≤ (floodImpactLegacy [15 / 100, 0] [50, 3]).getD 0 0 ∧
     (floodImpactLegacy [15 / 100, 0] [50, 3]).getD 0 0 ≤
       ([50, 3] : List ℚ).getD 0 0 ∧
     0 ≤ (floodImpactScaled [15 / 100, 0] [50, 3]).getD 0 0 ∧
     (floodImpactScaled [15 / 100, 0] [50, 3]).getD 0 0 ≤
       ([50, 3] : List ℚ).getD 0 0) :=
  ⟨by decide,
   c4_affected_population_bounds.1 [15 / 100, 0] [50, 3] (by decide) 0⟩

/-! ## Claim C6 -/

/-- C6: a gender-ratio layer with unit "percent" has its values divided by
100 (52 becomes 0.52), female population per cell is population times the
ratio, male population is population minus female population, and female plus
male equals the total at every cell — also for the female/male grids derived
from the impact grid. -/
theorem c6_gender_ratio_identity :
    genderRatioValue "percent" 52 = 13 / 25 ∧
    (∀ p r : ℚ, femaleCell p r = p * r) ∧
    (∀ p r : ℚ, femaleCell p r + maleCell p r = p) ∧
    (∀ P G : List ℚ, G.length = P.length →
      List.zipWith (fun a b => a + b)
        (List.zipWith femaleCell P G) (List.zipWith maleCell P G) = P) ∧
    femaleCell 100 (genderRatioValue "percent" 52) = 52 ∧
    maleCell 100 (genderRatioValue "percent" 52) = 48 := by
  refine ⟨by norm_num [genderRatioValue], fun p r => rfl, ?_, ?_, ?_, ?_⟩
  · intro p r
    unfold femaleCell maleCell femaleCell
    ring
  · intro P G
    induction P generalizing G with
    | nil => intro _; rfl
    | cons p ps ih =>
      intro hlen
      cases G with
      | nil => simp at hlen
      | cons g gs =>
        simp only [List.zipWith]
        have : femaleCell p g + maleCell p g = p := by
          unfold femaleCell maleCell femaleCell; ring
        rw [ih gs (by simpa using hlen), this]
  · norm_num [femaleCell, genderRatioValue]
  · norm_num [maleCell, femaleCell, genderRatioValue]

/-- Witness for C6: a concrete instantiation with its hypothesis discharged. -/
theorem c6_witness :
    ([52, 50] : List ℚ).length = ([100, 10] : List ℚ).length ∧
    List.zipWith (fun a b => a + b)
      (List.zipWith femaleCell [100, 10] [52, 50])
      (List.zipWith maleCell [100, 10] [52, 50]) = [100, 10] :=
  ⟨by decide, c6_gender_ratio_identity.2.2.2.1 [100, 10] [52, 50] (by decide)⟩

/-! ## Helper lemmas: volcano rounding and the cumulative loop -/

lemma round_thousand_dvd (n : Int) : (1000 : Int) ∣ round_thousand n :=
  Dvd.intro_left _ rfl

lemma round_thousand_of_dvd {m : Int} (h : (1000 : Int) ∣ m) :
    round_thousand m = m := by
  obtain ⟨k, rfl⟩ := h
  unfold round_thousand
  rw [Int.fdiv_eq_ediv _ (by norm_num), add_comm,
    Int.add_mul_ediv_left 500 k (by norm_num : (1000 : Int) ≠ 0)]
  norm_num [mul_comm]

lemma round_thousand_nonneg {n : Int} (h : 0 ≤ n) :
    0 ≤ round_thousand n := by
  unfold round_thousand
  have : (0 : Int) ≤ (n + 500).fdiv 1000 :=
    Int.fdiv_nonneg (by omega) (by norm_num)
  positivity

lemma pyInt_nonneg {q : ℚ} (h : 0 ≤ q) : 0 ≤ pyInt q := by
  unfold pyInt
  rw [if_pos h]
  exact Int.le_floor.mpr (by exact_mod_cast h)

/-- On a cumulative value that is a multiple of 1000 the extra
`cum = round_thousand(cum)` of the source is the identity, so the loop
computes exactly the rounded pops, their running sums, and the final sum. -/
lemma cumLoop_eq (categories : String → ℚ) :
    ∀ (names : List String) (c : Int), (1000 : Int) ∣ c →
      cumLoop categories c names =
        (roundedPops categories names,
         runningSums c (roundedPops categories names),
         c + (roundedPops categories names).sum) := by
  intro names
  induction names with
  | nil => intro c _; simp [cumLoop, roundedPops, runningSums]
  | cons name rest ih =>
    intro c hc
    have hpop : (1000 : Int) ∣ round_thousand (pyInt (categories name)) :=
      round_thousand_dvd _
    have hsum : (1000 : Int) ∣ c + round_thousand (pyInt (categories name)) :=
      dvd_add hc hpop
    have hround := round_thousand_of_dvd hsum
    simp only [cumLoop, hround, ih _ hsum, roundedPops, List.map_cons,
      runningSums, List.sum_cons, Prod.mk.injEq]
    refine ⟨trivial, trivial, by ring⟩

lemma runningSums_getD :
    ∀ (ps : List Int) (c : Int) (i : Nat), i < ps.length →
      (runningSums c ps).getD i 0 = c + (ps.take (i + 1)).sum := by
  intro ps
  induction ps with
  | nil => intro c i h; simp at h
  | cons p rest ih =>
    intro c i h
    cases i with
    | zero => simp [runningSums]
    | succ j =>
      have hj : j < rest.length := by simpa using h
      simp only [runningSums, List.getD_cons_succ, List.take_succ_cons,
        List.sum_cons, ih (c + p) j hj]
      ring

lemma runningSums_chain (ps : List Int) (hps : ∀ p ∈ ps, 0 ≤ p) :
    ∀ c : Int, List.Chain' (· ≤ ·) (runningSums c ps) := by
  induction ps with
  | nil => intro c; simp [runningSums]
  | cons p rest ih =>
    intro c
    rw [runningSums, List.chain'_cons']
    refine ⟨?_, ih (fun q hq => hps q (by simp [hq])) (c + p)⟩
    intro y hy
    cases rest with
    | nil => simp [runningSums] at hy
    | cons r rs =>
      simp only [runningSums, List.head?_cons, Option.mem_def,
        Option.some.injEq] at hy
      have hr : 0 ≤ r := hps r (by simp)
      omega

/-! ## Helper lemmas: volcano accumulation -/

lemma foldl_step_fst (polys : List String) :
    ∀ (samples : List (Nat × ℚ)) (acc : (Nat → ℚ) × (String → ℚ)) (i : Nat),
      (List.foldl (volcano_step polys) acc samples).1 i =
        acc.1 i + ((samples.filter (fun s => s.1 == i)).map Prod.snd).sum := by
  intro samples
  induction samples with
  | nil => intro acc i; simp
  | cons s rest ih =>
    intro acc i
    rw [List.foldl_cons, ih, List.filter_cons]
    by_cases h : s.1 = i
    · subst h
      simp only [beq_self_eq_true, if_true, List.map_cons, List.sum_cons]
      have hstep : (volcano_step polys acc s).1 s.1 = acc.1 s.1 + s.2 := by
        simp [volcano_step]
      rw [hstep]
      ring
    · have hbeq : (s.1 == i) = false := beq_eq_false_iff_ne.mpr h
      have hne : ¬ (i = s.1) := fun hh => h hh.symm
      simp only [hbeq, Bool.false_eq_true, if_false, volcano_step, if_neg hne]

lemma foldl_step_snd (polys : List String) :
    ∀ (samples : List (Nat × ℚ)) (acc : (Nat → ℚ) × (String → ℚ)) (c : String),
      (List.foldl (volcano_step polys) acc samples).2 c =
        acc.2 c + ((samples.filter
          (fun s => polys.getD s.1 "" == c)).map Prod.snd).sum := by
  intro samples
  induction samples with
  | nil => intro acc c; simp
  | cons s rest ih =>
    intro acc c
    rw [List.foldl_cons, ih, List.filter_cons]
    by_cases h : polys.getD s.1 "" = c
    · have hbeq : (polys.getD s.1 "" == c) = true := beq_iff_eq.mpr h
      simp only [hbeq, if_true, List.map_cons, List.sum_cons, volcano_step]
      have : (if c = polys.getD s.1 "" then acc.2 c + s.2 else acc.2 c) =
          acc.2 c + s.2 := by rw [if_pos h.symm]
      rw [this]
      ring
    · have hbeq : (polys.getD s.1 "" == c) = false := beq_eq_false_iff_ne.mpr h
      have hne : ¬ (c = polys.getD s.1 "") := fun hh => h hh.symm
      simp only [hbeq, Bool.false_eq_true, if_false, volcano_step, if_neg hne]

lemma volcano_accumulate_fst (polys : List String) (samples : List (Nat × ℚ))
    (i : Nat) :
    (volcano_accumulate polys samples).1 i =
      ((samples.filter (fun s => s.1 == i)).map Prod.snd).sum := by
  unfold volcano_accumulate
  rw [foldl_step_fst]
  simp

lemma volcano_accumulate_snd (polys : List String) (samples : List (Nat × ℚ))
    (c : String) :
    (volcano_accumulate polys samples).2 c =
      ((samples.filter (fun s => polys.getD s.1 "" == c)).map Prod.snd).sum := by
  unfold volcano_accumulate
  rw [foldl_step_snd]
  simp

lemma cumLoop_congr (f g : String → ℚ) :
    ∀ (names : List String) (c : Int), (∀ n ∈ names, f n = g n) →
      cumLoop f c names = cumLoop g c names := by
  intro names
  induction names with
  | nil => intro c _; rfl
  | cons name rest ih =>
    intro c h
    simp only [cumLoop, h name (by simp),
      ih _ (fun n hn => h n (by simp [hn]))]

lemma roundedPops_nonneg (categories : String → ℚ) (names : List String)
    (h : ∀ n ∈ names, 0 ≤ categories n) :
    ∀ p ∈ roundedPops categories names, 0 ≤ p := by
  intro p hp
  unfold roundedPops at hp
  obtain ⟨n, hn, rfl⟩ := List.mem_map.mp hp
  exact round_thousand_nonneg (pyInt_nonneg (h n hn))

/-! ## Helper lemmas: Python int() on integer quotients -/

lemma pyInt_intCast_div_nonneg (a : Int) (b : Nat) (ha : 0 ≤ a) :
    pyInt ((a : ℚ) / (b : ℚ)) = a / (b : Int) := by
  have h0 : (0 : ℚ) ≤ (a : ℚ) / (b : ℚ) :=
    div_nonneg (by exact_mod_cast ha) (by positivity)
  unfold pyInt
  rw [if_pos h0, Rat.floor_intCast_div_natCast]

lemma pyInt_intCast_div_neg (a : Int) (b : Nat) (hb : 0 < b) (ha : a < 0) :
    pyInt ((a : ℚ) / (b : ℚ)) = -((-a) / (b : Int)) := by
  have hneg : (a : ℚ) / (b : ℚ) < 0 :=
    div_neg_of_neg_of_pos (by exact_mod_cast ha) (by exact_mod_cast hb)
  have hceil : (⌈(a : ℚ) / (b : ℚ)⌉ : Int) = -⌊-((a : ℚ) / (b : ℚ))⌋ := by
    rw [Int.floor_neg]; ring
  unfold pyInt
  rw [if_neg (not_le.mpr hneg), hceil, ← neg_div,
    show -(a : ℚ) = ((-a : Int) : ℚ) by push_cast; ring,
    Rat.floor_intCast_div_natCast]

/-! ## Claim C3 -/

/-- C3 counterexample: at `evacuated = -1` the code's `family_kits` is the
floor `-1`, while truncation toward zero of `-1 / 5` is `0`, so the claim
that every result truncates toward zero for every integer input fails. -/
theorem c3_counterexample :
    family_kits (-1) = -1 ∧ pyInt ((-1 : ℚ) / 5) = 0 ∧
    family_kits (-1) ≠ pyInt ((-1 : ℚ) / 5) := by
  refine ⟨by decide, by norm_num [pyInt], ?_⟩
  have h1 : family_kits (-1) = -1 := by decide
  have h2 : pyInt ((-1 : ℚ) / 5) = 0 := by norm_num [pyInt]
  rw [h1, h2]
  decide

/-- C3 (amended): with the float coefficients modelled as exact rationals,
`rice` and `drinking_water` truncate the products toward zero for every
integer input, and `water` is the exact product `67 × evacuated`; but
`family_kits` and `toilets` use Python's floor division, which agrees with
truncation toward zero only for non-negative `evacuated` (for negative
values they round toward negative infinity). -/
theorem c3_needs_amended (e : Int) :
    rice e = pyInt ((e : ℚ) * (28 / 10)) ∧
    drinking_water e = pyInt ((e : ℚ) * (175 / 10)) ∧
    water e = 67 * e ∧
    family_kits e = e.fdiv 5 ∧
    toilets e = e.fdiv 20 ∧
    (0 ≤ e →
      rice e = 28 * e / 10 ∧
      drinking_water e = 175 * e / 10 ∧
      family_kits e = e / 5 ∧
      toilets e = e / 20 ∧
      family_kits e = pyInt ((e : ℚ) / 5) ∧
      toilets e = pyInt ((e : ℚ) / 20)) ∧
    (e < 0 →
      rice e = -(-(28 * e) / 10) ∧
      drinking_water e = -(-(175 * e) / 10)) := by
  have hrice : (e : ℚ) * (28 / 10) = ((28 * e : Int) : ℚ) / ((10 : Nat) : ℚ) := by
    push_cast; ring
  have hdw : (e : ℚ) * (175 / 10) = ((175 * e : Int) : ℚ) / ((10 : Nat) : ℚ) := by
    push_cast; ring
  refine ⟨rfl, rfl, by unfold water; ring, rfl, rfl, ?_, ?_⟩
  · intro he
    have h5 : family_kits e = e / 5 := by
      unfold family_kits
      exact Int.fdiv_eq_ediv e (by norm_num)
    have h20 : toilets e = e / 20 := by
      unfold toilets
      exact Int.fdiv_eq_ediv e (by norm_num)
    refine ⟨?_, ?_, h5, h20, ?_, ?_⟩
    · unfold rice
      rw [hrice, pyInt_intCast_div_nonneg _ _ (by omega)]
      norm_num
    · unfold drinking_water
      rw [hdw, pyInt_intCast_div_nonneg _ _ (by omega)]
      norm_num
    · rw [h5, show (e : ℚ) / 5 = ((e : Int) : ℚ) / ((5 : Nat) : ℚ) by push_cast; ring,
        pyInt_intCast_div_nonneg _ _ he]
      norm_num
    · rw [h20, show (e : ℚ) / 20 = ((e : Int) : ℚ) / ((20 : Nat) : ℚ) by push_cast; ring,
        pyInt_intCast_div_nonneg _ _ he]
      norm_num
  · intro he
    constructor
    · unfold rice
      rw [hrice, pyInt_intCast_div_neg _ _ (by norm_num) (by omega)]
      norm_num
    · unfold drinking_water
      rw [hdw, pyInt_intCast_div_neg _ _ (by norm_num) (by omega)]
      norm_num

/-- Witness for C3: the scenario `evacuated = 1000` with the non-negativity
hypothesis discharged, yielding the spec's concrete values. -/
theorem c3_witness :
    rice 1000 = 2800 ∧ drinking_water 1000 = 17500 ∧ water 1000 = 67000 ∧
    family_kits 1000 = 200 ∧ toilets 1000 = 50 := by
  have h := (c3_needs_amended 1000).2.2.2.2.2.1 (by decide)
  have hw := (c3_needs_amended 1000).2.2.1
  exact ⟨h.1.trans (by decide), h.2.1.trans (by decide), hw.trans (by decide),
    h.2.2.1.trans (by decide), h.2.2.2.1.trans (by decide)⟩

/-! ## Helper lemmas: the volcano polygon path -/

lemma volcanoRun_polygon (inp : VolcanoInput) (hvec : inp.is_vector = true)
    (hgeom : inp.geometry = GeometryKind.polygon)
    (hattr : "KRB" ∈ inp.attribute_names) :
    volcanoRun inp = Except.ok (volcanoExpected inp) := by
  have hc := cumLoop_eq (volcano_accumulate inp.polygon_categories inp.samples).2
    category_names 0 (dvd_zero 1000)
  unfold volcanoRun
  rw [hgeom]
  simp only [hvec, not_true_eq_false, if_false, reduceCtorEq, or_false,
    not_false_eq_true, if_true, hattr, hc]
  simp [volcanoExpected, cumLoop_eq _ _ _ (dvd_zero 1000)]

/-! ## Claim C1 -/

/-- C1: the cumulative evacuation sequence is round-then-sum — each
per-category total is rounded to the nearest thousand and added to the
running cumulative, so `cums[i]` is the sum of the first `i+1` rounded
totals — and the final cumulative value is returned as `evacuated` and used
for the resource needs; this holds for the loop over any ordered category
list and for every successful polygon-hazard run. -/
theorem c1_round_then_sum_evacuated :
    (∀ (categories : String → ℚ) (names : List String),
      (cumLoop categories 0 names).1 = roundedPops categories names ∧
      (∀ i : Nat, i < names.length →
        (cumLoop categories 0 names).2.1.getD i 0 =
          ((roundedPops categories names).take (i + 1)).sum) ∧
      (cumLoop categories 0 names).2.2 = (roundedPops categories names).sum) ∧
    (∀ (inp : VolcanoInput) (out : VolcanoOutput),
      inp.is_vector = true → inp.geometry = GeometryKind.polygon →
      "KRB" ∈ inp.attribute_names →
      (volcanoRun inp = Except.ok out →
        out.pops = roundedPops
          (volcano_accumulate inp.polygon_categories inp.samples).2
          category_names ∧
        out.evacuated = out.pops.sum ∧
        (∀ i : Nat, i < category_names.length →
          out.cums.getD i 0 = (out.pops.take (i + 1)).sum) ∧
        out.rice = rice out.evacuated ∧
        out.drinking_water = drinking_water out.evacuated ∧
        out.water = water out.evacuated ∧
        out.family_kits = family_kits out.evacuated ∧
        out.toilets = toilets out.evacuated) ∧
      volcanoRun inp = Except.ok (volcanoExpected inp)) := by
  constructor
  · intro categories names
    have hc := cumLoop_eq categories names 0 (dvd_zero 1000)
    rw [hc]
    refine ⟨rfl, ?_, zero_add _⟩
    intro i hi
    have hlen : i < (roundedPops categories names).length := by
      simpa [roundedPops] using hi
    simpa using runningSums_getD (roundedPops categories names) 0 i hlen
  · intro inp out hvec hgeom hattr
    have hexp := volcanoRun_polygon inp hvec hgeom hattr
    refine ⟨?_, hexp⟩
    intro hrun
    rw [hexp] at hrun
    have hout : volcanoExpected inp = out := by
      injection hrun
    subst hout
    have hlen : (roundedPops
        (volcano_accumulate inp.polygon_categories inp.samples).2
        category_names).length = category_names.length := by
      simp [roundedPops]
    refine ⟨rfl, rfl, ?_, rfl, rfl, rfl, rfl, rfl⟩
    intro i hi
    show (runningSums 0 (roundedPops _ category_names)).getD i 0 = _
    rw [runningSums_getD _ 0 i (by rw [hlen]; exact hi)]
    simp [volcanoExpected]

/-- Witness for C1: a concrete polygon-hazard input on which the run
succeeds, with all hypotheses discharged. -/
theorem c1_witness :
    volcanoRun
      ⟨true, GeometryKind.polygon, ["KRB", "GUNUNG"],
       ["Kawasan Rawan Bencana III"], [(0, 1200)], 1200,
       Except.error (VolcanoError.exception "unused")⟩ =
    Except.ok (volcanoExpected
      ⟨true, GeometryKind.polygon, ["KRB", "GUNUNG"],
       ["Kawasan Rawan Bencana III"], [(0, 1200)], 1200,
       Except.error (VolcanoError.exception "unused")⟩) :=
  (c1_round_then_sum_evacuated.2
    ⟨true, GeometryKind.polygon, ["KRB", "GUNUNG"],
     ["Kawasan Rawan Bencana III"], [(0, 1200)], 1200,
     Except.error (VolcanoError.exception "unused")⟩
    (volcanoExpected
      ⟨true, GeometryKind.polygon, ["KRB", "GUNUNG"],
       ["Kawasan Rawan Bencana III"], [(0, 1200)], 1200,
       Except.error (VolcanoError.exception "unused")⟩)
    rfl rfl (by decide)).2

/-! ## Claim C5 -/

/-- C5: for non-negative per-category totals the cumulative values reported
per category are non-decreasing in the order the categories are processed. -/
theorem c5_cumulative_monotone (categories : String → ℚ)
    (names : List String) (h : ∀ n ∈ names, 0 ≤ categories n) :
    List.Chain' (· ≤ ·) ((cumLoop categories 0 names).2.1) := by
  have hc := cumLoop_eq categories names 0 (dvd_zero 1000)
  rw [hc]
  exact runningSums_chain _ (roundedPops_nonneg categories names h) 0

/-- Witness for C5: a concrete instantiation with its hypothesis discharged. -/
theorem c5_witness :
    (∀ n ∈ category_names, 0 ≤ (fun _ => (1700 : ℚ)) n) ∧
    List.Chain' (· ≤ ·)
      ((cumLoop (fun _ => (1700 : ℚ)) 0 category_names).2.1) :=
  ⟨by decide, c5_cumulative_monotone (fun _ => (1700 : ℚ)) category_names
    (by decide)⟩

/-! ## Helper lemmas: classification and styling -/

lemma range_map_getD {α : Type} (n : Nat) (f : Nat → α) (d : α) (i : Nat)
    (hi : i < n) : ((List.range n).map f).getD i d = f i := by
  rw [List.getD_eq_getElem?_getD, List.getElem?_map, List.getElem?_range hi]
  rfl

lemma le_foldl_max_init : ∀ (l : List ℚ) (a : ℚ), a ≤ l.foldl max a := by
  intro l
  induction l with
  | nil => intro a; simp
  | cons x xs ih =>
    intro a
    exact le_trans (le_max_left a x) (by simpa using ih (max a x))

lemma le_foldl_max_of_mem : ∀ (l : List ℚ) (a v : ℚ), v ∈ l →
    v ≤ l.foldl max a := by
  intro l
  induction l with
  | nil => intro a v hv; simp at hv
  | cons x xs ih =>
    intro a v hv
    rcases List.mem_cons.mp hv with rfl | hv
    · exact le_trans (le_max_right a v)
        (by simpa using le_foldl_max_init xs (max a v))
    · simpa using ih (max a x) v hv

lemma foldl_max_eq_init_or_mem : ∀ (l : List ℚ) (a : ℚ),
    l.foldl max a = a ∨ l.foldl max a ∈ l := by
  intro l
  induction l with
  | nil => intro a; simp
  | cons x xs ih =>
    intro a
    rcases ih (max a x) with h | h
    · rcases max_choice a x with hm | hm
      · left; simpa [hm] using h
      · right; simp only [List.foldl_cons]; rw [h, hm]; simp
    · right; simp only [List.foldl_cons]; simp [h]

lemma foldl_max_mem (values : List ℚ) (hne : values ≠ [])
    (hnn : ∀ v ∈ values, 0 ≤ v) : values.foldl max 0 ∈ values := by
  rcases foldl_max_eq_init_or_mem values 0 with h | h
  · cases values with
    | nil => exact absurd rfl hne
    | cons x xs =>
      have hx : x ≤ (x :: xs).foldl max 0 :=
        le_foldl_max_of_mem (x :: xs) 0 x (by simp)
      have hx0 : x = 0 := le_antisymm (h ▸ hx) (hnn x (by simp))
      rw [h, ← hx0]
      simp
  · exact h

lemma class_breaks_getD (values : List ℚ) (i : Nat) (hi : i < 8) :
    (class_breaks values 8).getD i 0 =
      values.foldl max 0 * ((i : ℚ) + 1) / 8 := by
  unfold class_breaks
  rw [range_map_getD _ _ _ _ hi]
  norm_num

lemma styleClasses_getD (classes : List ℚ) (i : Nat) (hi : i < 8) :
    (styleClasses classes).getD i dummyStyle =
      ⟨colours.getD i "",
       if i = 0 then 0 else classes.getD (i - 1) 0,
       classes.getD i 0,
       if i = 0 then 100 else 30⟩ := by
  unfold styleClasses
  exact range_map_getD colours.length _ dummyStyle i hi

lemma create_classes_ok (values : List ℚ) (hsome : ∃ v ∈ values, v ≠ 0) :
    ∀ n : Nat, create_classes values n = Except.ok (class_breaks values n) := by
  intro n
  obtain ⟨v, hv, hvne⟩ := hsome
  have h1 : values.isEmpty = false := by
    cases values with
    | nil => simp at hv
    | cons x xs => rfl
  have h2 : values.all (fun w => w == 0) = false := by
    rw [List.all_eq_false]
    exact ⟨v, hv, by simpa using hvne⟩
  unfold create_classes
  rw [h1, h2]
  rfl

/-! ## Claim C7 -/

/-- C7 counterexample: on the all-zero per-polygon population distribution
`[0, 0]` the spec's classification fails with an `EmptyDistributionError`,
so the styling step produces no style classes at all — refuting the claim
that it always produces exactly 8 style classes. -/
theorem c7_counterexample :
    styleStep [0, 0] = Except.error VolcanoError.emptyDistributionError ∧
    (styleStep [0, 0]).toOption = none := by
  exact ⟨rfl, rfl⟩

/-- C7 (amended): on a distribution with at least one nonzero value the
styling step succeeds and produces exactly 8 style classes — class 0 with
minimum 0 and transparency 100, every later class with minimum equal to the
previous class's maximum and transparency 30, and the last class's maximum
equal to the maximum observed per-polygon population value (stated for
non-negative values); on an all-zero or empty distribution the
classification instead fails with an `EmptyDistributionError` and no style
classes are produced. -/
theorem c7_style_classification (values : List ℚ)
    (hsome : ∃ v ∈ values, v ≠ 0) (hnn : ∀ v ∈ values, 0 ≤ v) :
    styleStep values =
      Except.ok (styleClasses (class_breaks values colours.length)) ∧
    (styleClasses (class_breaks values colours.length)).length = 8 ∧
    ((styleClasses (class_breaks values colours.length)).getD 0
      dummyStyle).min = 0 ∧
    ((styleClasses (class_breaks values colours.length)).getD 0
      dummyStyle).transparency = 100 ∧
    (∀ i : Nat, 1 ≤ i → i < 8 →
      ((styleClasses (class_breaks values colours.length)).getD i
        dummyStyle).min =
        ((styleClasses (class_breaks values colours.length)).getD (i - 1)
          dummyStyle).max ∧
      ((styleClasses (class_breaks values colours.length)).getD i
        dummyStyle).transparency = 30) ∧
    ((styleClasses (class_breaks values colours.length)).getD 7
      dummyStyle).max = values.foldl max 0 ∧
    values.foldl max 0 ∈ values ∧
    (∀ v ∈ values, v ≤ values.foldl max 0) ∧
    (∀ ws : List ℚ, (∀ w ∈ ws, w = 0) →
      styleStep ws = Except.error VolcanoError.emptyDistributionError) := by
  have hne : values ≠ [] := by
    obtain ⟨v, hv, _⟩ := hsome
    intro h
    rw [h] at hv
    simp at hv
  refine ⟨?_, rfl, ?_, ?_, ?_, ?_, foldl_max_mem values hne hnn,
    fun v hv => le_foldl_max_of_mem values 0 v hv, ?_⟩
  · unfold styleStep
    rw [create_classes_ok values hsome]
  · rw [styleClasses_getD _ 0 (by norm_num)]
    simp
  · rw [styleClasses_getD _ 0 (by norm_num)]
    simp
  · intro i h1 h8
    rw [styleClasses_getD _ i h8,
      styleClasses_getD _ (i - 1) (by omega)]
    have hi0 : ¬ i = 0 := by omega
    simp [hi0]
  · rw [styleClasses_getD _ 7 (by norm_num)]
    show (class_breaks values colours.length).getD 7 0 = values.foldl max 0
    rw [show colours.length = 8 from rfl, class_breaks_getD values 7 (by norm_num)]
    norm_num
  · intro ws hws
    have hall : ws.all (fun w => w == 0) = true := by
      rw [List.all_eq_true]
      intro w hw
      simpa using hws w hw
    unfold styleStep create_classes
    rw [hall]
    simp

/-- Witness for C7: a concrete instantiation with its hypotheses discharged. -/
theorem c7_witness :
    (∃ v ∈ ([40, 10] : List ℚ), v ≠ 0) ∧
    (∀ v ∈ ([40, 10] : List ℚ), 0 ≤ v) ∧
    styleStep [40, 10] =
      Except.ok (styleClasses (class_breaks [40, 10] colours.length)) ∧
    (styleClasses (class_breaks [40, 10] colours.length)).length = 8 ∧
    ([40, 10] : List ℚ).foldl max 0 ∈ ([40, 10] : List ℚ) :=
  ⟨by decide, by decide,
   (c7_style_classification [40, 10] (by decide) (by decide)).1,
   (c7_style_classification [40, 10] (by decide) (by decide)).2.1,
   (c7_style_classification [40, 10] (by decide)
     (by decide)).2.2.2.2.2.2.1⟩

/-! ## Claim C10 -/

lemma filter_filter_of_imp {α : Type} (l : List α) (p q : α → Bool)
    (h : ∀ a, p a = true → q a = true) :
    (l.filter q).filter p = l.filter p := by
  induction l with
  | nil => rfl
  | cons x xs ih =>
    by_cases hp : p x = true
    · have hq := h x hp
      simp [List.filter_cons, hp, hq, ih]
    · by_cases hq : q x = true
      · simp [List.filter_cons, hp, hq, ih]
      · simp [List.filter_cons, hp, hq, ih]

/-- C10: population joined to a polygon whose category is not one of the
three fixed KRB names is still accumulated into that polygon's per-polygon
population total, but the per-category cumulative loop (and hence `pops`,
`cums` and the final `evacuated`) is unchanged when all such off-list samples
are dropped, because the loop iterates only the fixed category list with
absent keys defaulting to zero. -/
theorem c10_off_list_category (polys : List String)
    (samples : List (Nat × ℚ)) (h_ids : ∀ s ∈ samples, s.1 < polys.length)
    (j : Nat) (hj : j < polys.length)
    (hcat : polys.getD j "" ∉ category_names) :
    (volcano_accumulate polys samples).1 j =
      ((samples.filter (fun s => s.1 == j)).map Prod.snd).sum ∧
    cumLoop (volcano_accumulate polys samples).2 0 category_names =
      cumLoop (volcano_accumulate polys
        (samples.filter
          (fun s => decide (polys.getD s.1 "" ∈ category_names)))).2
        0 category_names := by
  constructor
  · exact volcano_accumulate_fst polys samples j
  · apply cumLoop_congr
    intro c hc
    rw [volcano_accumulate_snd, volcano_accumulate_snd,
      filter_filter_of_imp samples
        (fun s => polys.getD s.1 "" == c)
        (fun s => decide (polys.getD s.1 "" ∈ category_names))
        ?_]
    intro s hs
    have hsc : polys.getD s.1 "" = c := beq_iff_eq.mp hs
    show decide (polys.getD s.1 "" ∈ category_names) = true
    rw [hsc]
    exact decide_eq_true hc

/-- Witness for C10: a concrete polygon list with an off-list category and a
sample joined to it, all hypotheses discharged. -/
theorem c10_witness :
    (∀ s ∈ [((0 : Nat), (100 : ℚ)), (1, 700)], s.1 <
      (["Kawasan Rawan Bencana III", "Gunung Api"] : List String).length) ∧
    (1 < (["Kawasan Rawan Bencana III", "Gunung Api"] : List String).length) ∧
    ((["Kawasan Rawan Bencana III", "Gunung Api"] : List String).getD 1 ""
      ∉ category_names) ∧
    ((volcano_accumulate ["Kawasan Rawan Bencana III", "Gunung Api"]
        [((0 : Nat), (100 : ℚ)), (1, 700)]).1 1 =
      (([((0 : Nat), (100 : ℚ)), (1, 700)].filter
        (fun s => s.1 == 1)).map Prod.snd).sum ∧
     cumLoop (volcano_accumulate ["Kawasan Rawan Bencana III", "Gunung Api"]
        [((0 : Nat), (100 : ℚ)), (1, 700)]).2 0 category_names =
      cumLoop (volcano_accumulate ["Kawasan Rawan Bencana III", "Gunung Api"]
        ([((0 : Nat), (100 : ℚ)), (1, 700)].filter
          (fun s => decide
            ((["Kawasan Rawan Bencana III", "Gunung Api"] : List String).getD
              s.1 "" ∈ category_names)))).2 0 category_names) :=
  ⟨by decide, by decide, by decide,
   c10_off_list_category ["Kawasan Rawan Bencana III", "Gunung Api"]
     [((0 : Nat), (100 : ℚ)), (1, 700)] (by decide) 1 (by decide) (by decide)⟩

/-! ## Claim C8 -/

/-- C8 counterexample: for a concrete vector hazard whose geometry is neither
polygon nor point, the run fails with a plain `Exception` (as the source's
`raise Exception(msg)` does), not with an `UnsupportedGeometryError`. -/
theorem c8_counterexample :
    volcanoRun ⟨true, GeometryKind.other, ["KRB"], [], [], 0,
      Except.error (VolcanoError.exception "unused")⟩ =
      Except.error (VolcanoError.exception geometry_msg) ∧
    volcanoRun ⟨true, GeometryKind.other, ["KRB"], [], [], 0,
      Except.error (VolcanoError.exception "unused")⟩ ≠
      Except.error VolcanoError.unsupportedGeometryError := by
  refine ⟨rfl, ?_⟩
  intro h
  rw [show volcanoRun ⟨true, GeometryKind.other, ["KRB"], [], [], 0,
      Except.error (VolcanoError.exception "unused")⟩ =
      Except.error (VolcanoError.exception geometry_msg) from rfl] at h
  simp at h

/-- C8 (amended): if the hazard layer is a vector layer whose geometry is
neither polygon nor point, the run fails — producing no result — with a
plain `Exception` carrying the polygon-or-point message (the source has no
`UnsupportedGeometryError`). -/
theorem c8_geometry_check (inp : VolcanoInput) (hvec : inp.is_vector = true)
    (hgeom : inp.geometry = GeometryKind.other) :
    volcanoRun inp = Except.error (VolcanoError.exception geometry_msg) := by
  unfold volcanoRun
  rw [hgeom]
  simp [hvec]

/-- Witness for C8: a concrete instantiation with its hypotheses discharged. -/
theorem c8_witness :
    volcanoRun ⟨true, GeometryKind.other, [], [], [], 7,
      Except.error (VolcanoError.exception "unused")⟩ =
      Except.error (VolcanoError.exception geometry_msg) :=
  c8_geometry_check ⟨true, GeometryKind.other, [], [], [], 7,
    Except.error (VolcanoError.exception "unused")⟩ rfl rfl

/-! ## Claim C9 -/

lemma findLayers_error_msg :
    ∀ (layers : List ELayer) (acc : Option ELayer × Option (ELayer × String))
      (e : FloodError), findLayers layers acc = Except.error e →
      e = FloodError.runtimeError gender_unit_msg := by
  intro layers
  induction layers with
  | nil => intro acc e h; simp [findLayers] at h
  | cons x xs ih =>
    intro acc e h
    unfold findLayers at h
    cases hx : x.datatype with
    | none =>
      rw [hx] at h
      exact ih _ e h
    | some dt =>
      rw [hx] at h
      by_cases hsub : strContains "ratio" dt = true
      · simp only [hsub, not_true_eq_false, if_false] at h
        by_cases hunit : x.unit = "percent" ∨ x.unit = "ratio"
        · rw [if_neg (not_not_intro hunit)] at h
          exact ih _ e h
        · rw [if_pos hunit] at h
          injection h with h'
          exact h'.symm
      · simp only [hsub, not_false_eq_true, if_true] at h
        exact ih _ e h

lemma findLayers_bad_unit :
    ∀ (layers : List ELayer) (acc : Option ELayer × Option (ELayer × String))
      (layer : ELayer) (dt : String), layer ∈ layers →
      layer.datatype = some dt → strContains "ratio" dt = true →
      ¬ (layer.unit = "percent" ∨ layer.unit = "ratio") →
      findLayers layers acc =
        Except.error (FloodError.runtimeError gender_unit_msg) := by
  intro layers
  induction layers with
  | nil => intro acc layer dt hmem; simp at hmem
  | cons x xs ih =>
    intro acc layer dt hmem hdt hsub hunit
    rcases List.mem_cons.mp hmem with rfl | hmem
    · unfold findLayers
      rw [hdt]
      simp only [hsub, not_true_eq_false, if_false]
      rw [if_pos hunit]
    · unfold findLayers
      cases hx : x.datatype with
      | none => exact ih _ layer dt hmem hdt hsub hunit
      | some dt' =>
        by_cases hsub' : strContains "ratio" dt' = true
        · simp only [hsub', not_true_eq_false, if_false]
          by_cases hunit' : x.unit = "percent" ∨ x.unit = "ratio"
          · rw [if_neg (not_not_intro hunit')]
            exact ih _ layer dt hmem hdt hsub hunit
          · rw [if_pos hunit']
        · simp only [hsub', not_false_eq_true, if_true]
          exact ih _ layer dt hmem hdt hsub hunit

lemma findLayers_good_units :
    ∀ (layers : List ELayer) (acc : Option ELayer × Option (ELayer × String)),
      (∀ layer ∈ layers, ∀ dt : String, layer.datatype = some dt →
        strContains "ratio" dt = true →
        (layer.unit = "percent" ∨ layer.unit = "ratio")) →
      ∃ r, findLayers layers acc = Except.ok r := by
  intro layers
  induction layers with
  | nil => intro acc _; exact ⟨acc, rfl⟩
  | cons x xs ih =>
    intro acc hgood
    have hxs : ∀ layer ∈ xs, ∀ dt : String, layer.datatype = some dt →
        strContains "ratio" dt = true →
        (layer.unit = "percent" ∨ layer.unit = "ratio") :=
      fun layer hl => hgood layer (by simp [hl])
    unfold findLayers
    cases hx : x.datatype with
    | none => exact ih _ hxs
    | some dt =>
      by_cases hsub : strContains "ratio" dt = true
      · simp only [hsub, not_true_eq_false, if_false]
        have hunit : x.unit = "percent" ∨ x.unit = "ratio" :=
          hgood x (by simp) dt hx hsub
        rw [if_neg (not_not_intro hunit)]
        exact ih _ hxs
      · simp only [hsub, not_false_eq_true, if_true]
        exact ih _ hxs

/-- C9 counterexample: a concrete gender-ratio layer with unit `"furlong"`
makes the run fail with a `RuntimeError` (as the source's
`raise RuntimeError(msg)` does), not with an `InvalidUnitError`. -/
theorem c9_counterexample :
    floodRun [] [⟨some "gender_ratio", "furlong", 1, [], []⟩] =
      Except.error (FloodError.runtimeError gender_unit_msg) ∧
    floodRun [] [⟨some "gender_ratio", "furlong", 1, [], []⟩] ≠
      Except.error FloodError.invalidUnitError := by
  refine ⟨rfl, ?_⟩
  intro h
  rw [show floodRun [] [⟨some "gender_ratio", "furlong", 1, [], []⟩] =
      Except.error (FloodError.runtimeError gender_unit_msg) from rfl] at h
  simp at h

/-- C9 (amended): if any exposure layer is a gender-ratio layer (its
`datatype` keyword contains "ratio") whose unit is neither "percent" nor
"ratio", the flood run fails with a `RuntimeError` carrying the unit message
before any impact computation; when every gender-ratio layer's unit is
"percent" or "ratio" that error is never raised; and no run ever produces the
spec's `InvalidUnitError`. -/
theorem c9_gender_unit_check :
    (∀ (depths : List ℚ) (layers : List ELayer) (layer : ELayer)
      (dt : String), layer ∈ layers → layer.datatype = some dt →
      strContains "ratio" dt = true →
      ¬ (layer.unit = "percent" ∨ layer.unit = "ratio") →
      floodRun depths layers =
        Except.error (FloodError.runtimeError gender_unit_msg)) ∧
    (∀ (depths : List ℚ) (layers : List ELayer),
      (∀ layer ∈ layers, ∀ dt : String, layer.datatype = some dt →
        strContains "ratio" dt = true →
        (layer.unit = "percent" ∨ layer.unit = "ratio")) →
      floodRun depths layers ≠
        Except.error (FloodError.runtimeError gender_unit_msg)) ∧
    (∀ (depths : List ℚ) (layers : List ELayer),
      floodRun depths layers ≠ Except.error FloodError.invalidUnitError) := by
  refine ⟨?_, ?_, ?_⟩
  · intro depths layers layer dt hmem hdt hsub hunit
    unfold floodRun
    rw [findLayers_bad_unit layers (none, none) layer dt hmem hdt hsub hunit]
  · intro depths layers hgood
    obtain ⟨r, hr⟩ := findLayers_good_units layers (none, none) hgood
    unfold floodRun
    rw [hr]
    obtain ⟨popOpt, genderOpt⟩ := r
    cases popOpt with
    | none =>
      intro h
      injection h with h'
      have : no_population_msg = gender_unit_msg := by injection h'
      exact absurd this (by decide)
    | some population =>
      cases genderOpt with
      | none => intro h; simp at h
      | some g => obtain ⟨g1, g2⟩ := g; intro h; simp at h
  · intro depths layers
    unfold floodRun
    cases hfind : findLayers layers (none, none) with
    | error e =>
      have he := findLayers_error_msg layers (none, none) e hfind
      subst he
      intro h
      simp at h
    | ok r =>
      obtain ⟨popOpt, genderOpt⟩ := r
      cases popOpt with
      | none => intro h; simp at h
      | some population =>
        cases genderOpt with
        | none => intro h; simp at h
        | some g => obtain ⟨g1, g2⟩ := g; intro h; simp at h

/-- Witness for C9: a concrete bad-unit layer list with all hypotheses
discharged. -/
theorem c9_witness :
    ((⟨some "female_ratio", "parts", 2, [], []⟩ : ELayer) ∈
      [(⟨some "female_ratio", "parts", 2, [], []⟩ : ELayer)]) ∧
    floodRun [3] [⟨some "female_ratio", "parts", 2, [], []⟩] =
      Except.error (FloodError.runtimeError gender_unit_msg) :=
  ⟨by decide,
   c9_gender_unit_check.1 [3] [⟨some "female_ratio", "parts", 2, [], []⟩]
     ⟨some "female_ratio", "parts", 2, [], []⟩ "female_ratio"
     (by decide) rfl (by decide) (by decide)⟩
